import Mathlib

/-!
Shallow embedding of the frame-chain generation and scene-state
orchestration pipeline of the Veo Storyweaver application
(src/App.tsx, src/unnamed/part_000 = services/geminiService.ts + types.ts).

External gateway calls are modelled by passing their observable outcome
(`Except Unit _` for a call that may throw, `Option _` for a call that may
return null) as an explicit argument to the otherwise pure state
transition functions.  React `setState` updates become function
applications on an explicit `AppState` value, in the order the source
performs them.
-/

namespace Veo

/-- `status` field of `SceneState` (types.ts):
`'idle' | 'analyzing_script' | 'generating_video' | 'complete' | 'error'`. -/
inductive Status where
  | idle
  | analyzing_script
  | generating_video
  | complete
  | error
  deriving DecidableEq, Repr

/-- `targetResolution` field (types.ts): `'1080p' | '4k'`. -/
inductive Resolution where
  | r1080p
  | r4k
  deriving DecidableEq, Repr

/-- `ImageGenerationModel` (types.ts). -/
inductive ImageGenerationModel where
  | gemini_3_pro_image_preview
  | gemini_2_5_flash_image
  deriving DecidableEq, Repr

/-- `SceneState` (types.ts).  Optional fields (`generatedVideoUrl?`,
`errorMessage?`, `recommendedDuration : string | null`) become `Option`. -/
structure SceneState where
  id : String
  index : Nat
  startImage : String
  endImage : String
  script : String
  movementDescription : String
  expressionDescription : String
  recommendedDuration : Option String
  targetResolution : Resolution
  endFrameActionPrompt : String
  isRegeneratingImage : Bool
  generatedVideoUrl : Option String
  isProcessing : Bool
  status : Status
  errorMessage : Option String
  deriving DecidableEq, Repr

/-- `GenerationConfig` (types.ts). -/
structure GenerationConfig where
  mainImage : Option String
  faceReference : Option String
  numFrames : Nat
  selectedModel : ImageGenerationModel
  poseDescription : String
  deriving DecidableEq, Repr

/-- `step` field of `AppState` (types.ts). -/
inductive Step where
  | upload
  | generating_frames
  | sequencing
  deriving DecidableEq, Repr

/-- `AppState` (types.ts). -/
structure AppState where
  step : Step
  config : GenerationConfig
  scenes : List SceneState
  isApiKeySelected : Bool
  deriving DecidableEq, Repr

/-- JS `Array.prototype.findIndex` (returning `none` instead of `-1`). -/
def findIndex (p : SceneState → Bool) : List SceneState → Option Nat
  | [] => none
  | s :: rest => if p s then some 0 else (findIndex p rest).map (· + 1)

/-- `arr[i] = f (arr[i])` on a copied array, as in
`const updatedScenes = [...prev.scenes]; updatedScenes[i] = {...updatedScenes[i], ...}`.
Out of bounds leaves the list unchanged (never reached in the source). -/
def modifyIdx : List SceneState → Nat → (SceneState → SceneState) → List SceneState
  | [], _, _ => []
  | s :: rest, 0, f => f s :: rest
  | s :: rest, n + 1, f => s :: modifyIdx rest n f

/-- JS `String.prototype.trim`: strips leading and trailing whitespace
(structurally recursive so that concrete instances evaluate). -/
def trimString (s : String) : String :=
  String.mk (((s.toList.dropWhile Char.isWhitespace).reverse.dropWhile Char.isWhitespace).reverse)

/-- The scene literal pushed by the loop in `startAnalysisAndGeneration`
(src/App.tsx lines 95-109); `crypto.randomUUID()` is abstracted by the
caller-supplied id. -/
def mkScene (sceneId : String) (i : Nat) (startImg endImg : String) : SceneState :=
  { id := sceneId
    index := i
    startImage := startImg
    endImage := endImg
    script := ""
    movementDescription := ""
    expressionDescription := ""
    recommendedDuration := none
    targetResolution := Resolution.r1080p
    endFrameActionPrompt := ""
    isRegeneratingImage := false
    generatedVideoUrl := none
    isProcessing := false
    status := Status.idle
    errorMessage := none }

/-- Chain Builder: the loop `for (let i = 0; i < allFrames.length - 1; i++)`
in `startAnalysisAndGeneration` (src/App.tsx lines 93-110).  `ids i` stands
for the `crypto.randomUUID()` drawn at iteration `i`. -/
def buildScenes (ids : Nat → String) (allFrames : List String) : List SceneState :=
  (List.range (allFrames.length - 1)).map fun i =>
    mkScene (ids i) i (allFrames.getD i "") (allFrames.getD (i + 1) "")

/-- The frame-assembly tail of `startAnalysisAndGeneration`
(src/App.tsx lines 86-122), entered with `step = generating_frames` and the
gateway results in hand: `allFrames = [cleanMain, ...generatedFrames]`;
fewer than 2 frames throws, and the catch block resets `step` to `upload`
leaving `scenes` untouched; otherwise the scene list is installed and
`step` becomes `sequencing`. -/
def assembleScenes (st : AppState) (ids : Nat → String) (cleanMain : String)
    (generatedFrames : List String) : AppState :=
  let allFrames := cleanMain :: generatedFrames
  if allFrames.length < 2 then
    { st with step := Step.upload }
  else
    { st with step := Step.sequencing, scenes := buildScenes ids allFrames }

/-- `updateScript` (src/App.tsx lines 125-130): maps over the scene list,
replacing the script and nulling `recommendedDuration` on the scene(s)
whose id matches. -/
def updateScript (st : AppState) (sceneId text : String) : AppState :=
  { st with scenes := st.scenes.map fun s =>
      if s.id == sceneId then { s with script := text, recommendedDuration := none } else s }

/-- `replace(/[^0-9.]/g, '')` in `estimateSpeakingDuration`
(services/geminiService.ts line 167): keep only digits and dots. -/
def stripNonNumeric (s : String) : String :=
  String.mk (s.toList.filter fun c => c.isDigit || c == '.')

/-- `estimateSpeakingDuration` (services/geminiService.ts lines 151-172).
`gateway = .error ()` models the generateContent call throwing;
`gateway = .ok t` models a response whose `.text` field is `t`
(`none` = undefined).  The source computes
`response.text?.trim() || ""` and strips non-numeric characters; on a
thrown error it returns the fallback `"8"`; a blank script short-circuits
to `"0s"` before any call. -/
def estimateSpeakingDuration (script : String)
    (gateway : Except Unit (Option String)) : String :=
  if ((trimString script).length == 0 : Bool) then "0s"
  else
    match gateway with
    | Except.ok t =>
        let text := ((t.map trimString).getD "")
        stripNonNumeric text
    | Except.error _ => "8"

/-- `analyzeDuration` (src/App.tsx lines 160-181).  `durationResult` is the
outcome of awaiting `estimateSpeakingDuration`: `.ok d` the returned
string, `.error ()` a throw (caught, clearing `isProcessing` only). -/
def analyzeDuration (st : AppState) (sceneId : String)
    (durationResult : Except Unit String) : AppState :=
  match st.scenes.find? (fun s => s.id == sceneId) with
  | none => st
  | some scene =>
    if (trimString scene.script == "" : Bool) then st
    else
      let st1 : AppState := { st with scenes := st.scenes.map fun s =>
        if s.id == sceneId then { s with isProcessing := true } else s }
      match durationResult with
      | Except.ok d =>
          { st1 with scenes := st1.scenes.map fun s =>
              if s.id == sceneId then
                { s with recommendedDuration := some d, isProcessing := false }
              else s }
      | Except.error _ =>
          { st1 with scenes := st1.scenes.map fun s =>
              if s.id == sceneId then { s with isProcessing := false } else s }

/-- `regenerateEndFrame` (src/App.tsx lines 183-249).  `gateway` is the
outcome of `regenerateSingleFrame`: `.error ()` a throw, `.ok none` a null
return (both land in the catch block via `throw new Error(...)`),
`.ok (some img)` a returned image — where the source's `if (newImage)`
also treats the empty string as falsy. -/
def regenerateEndFrame (st : AppState) (sceneId : String)
    (gateway : Except Unit (Option String)) : AppState :=
  match findIndex (fun s => s.id == sceneId) st.scenes with
  | none => st
  | some sceneIndex =>
    let scene := (st.scenes.getD sceneIndex (mkScene "" 0 "" ""))
    if (trimString scene.endFrameActionPrompt == "" : Bool) then st
    else
      let st1 : AppState := { st with scenes := st.scenes.map fun s =>
        if s.id == sceneId then { s with isRegeneratingImage := true } else s }
      let failure : AppState := { st1 with scenes := st1.scenes.map fun s =>
        if s.id == sceneId then { s with isRegeneratingImage := false } else s }
      match gateway with
      | Except.ok (some newImage) =>
          if (newImage == "" : Bool) then failure
          else
            let updated := modifyIdx st1.scenes sceneIndex fun s =>
              { s with endImage := newImage
                       isRegeneratingImage := false
                       generatedVideoUrl := none
                       status := Status.idle }
            let updated :=
              if sceneIndex + 1 < updated.length then
                modifyIdx updated (sceneIndex + 1) fun s =>
                  { s with startImage := newImage
                           generatedVideoUrl := none
                           status := Status.idle }
              else updated
            { st1 with scenes := updated }
      | Except.ok none => failure
      | Except.error _ => failure

/-- The fixed error message installed by `generateVideo`
(src/App.tsx line 300). -/
def veoErrorMessage : String := "Veo generation failed. Ensure billing is enabled."

/-- `generateVideo` (src/App.tsx lines 251-304).  `gateway` is the outcome
of `generateVeoSegment`: `.error ()` a thrown submission/polling/fetch
error, `.ok none` a null return (completed job with no video uri),
`.ok (some url)` a returned url — `if (!videoUrl) throw` also treats the
empty string as falsy, sending it to the catch block. -/
def generateVideo (st : AppState) (sceneId : String)
    (gateway : Except Unit (Option String)) : AppState :=
  match st.scenes.find? (fun s => s.id == sceneId) with
  | none => st
  | some _ =>
    let st1 : AppState := { st with scenes := st.scenes.map fun s =>
      if s.id == sceneId then
        { s with status := Status.generating_video, errorMessage := none }
      else s }
    let failure : AppState := { st1 with scenes := st1.scenes.map fun s =>
      if s.id == sceneId then
        { s with status := Status.error, errorMessage := some veoErrorMessage }
      else s }
    match gateway with
    | Except.ok (some videoUrl) =>
        if (videoUrl == "" : Bool) then failure
        else
          { st1 with scenes := st1.scenes.map fun s =>
              if s.id == sceneId then
                { s with status := Status.complete, generatedVideoUrl := some videoUrl }
              else s }
    | Except.ok none => failure
    | Except.error _ => failure

/-- `analyzeFaceFeatures` (services/geminiService.ts lines 97-114) on its
non-throwing path: `return response.text || "Detailed face reference."`,
where `responseText = none` models an undefined `.text` and the empty
string is falsy. -/
def analyzeFaceFeatures (responseText : Option String) : String :=
  let t := responseText.getD ""
  if (t == "" : Bool) then "Detailed face reference." else t

/-- `analyzeSceneFeatures` (services/geminiService.ts lines 119-142) on its
non-throwing path: `return response.text || "Cinematic scene description."`. -/
def analyzeSceneFeatures (responseText : Option String) : String :=
  let t := responseText.getD ""
  if (t == "" : Bool) then "Cinematic scene description." else t

/-- A concrete configuration, used to instantiate theorems on concrete
states. -/
def sampleConfig : GenerationConfig :=
  { mainImage := some "data,main"
    faceReference := some "data,face"
    numFrames := 10
    selectedModel := ImageGenerationModel.gemini_3_pro_image_preview
    poseDescription := "" }

/-- A concrete application state over a given scene list. -/
def sampleState (scenes : List SceneState) : AppState :=
  { step := Step.sequencing
    config := sampleConfig
    scenes := scenes
    isApiKeySelected := true }

/-! ### Helper lemmas on `modifyIdx` and `findIndex` -/

theorem length_modifyIdx (l : List SceneState) (i : Nat) (f : SceneState → SceneState) :
    (modifyIdx l i f).length = l.length := by
  induction l generalizing i with
  | nil => rfl
  | cons s rest ih =>
    cases i with
    | zero => rfl
    | succ n => simp [modifyIdx, ih]

theorem getElem?_modifyIdx (l : List SceneState) (i : Nat) (f : SceneState → SceneState)
    (j : Nat) : (modifyIdx l i f)[j]? = if j = i then l[j]?.map f else l[j]? := by
  induction l generalizing i j with
  | nil => simp [modifyIdx]
  | cons s rest ih =>
    cases i with
    | zero =>
      cases j with
      | zero => simp [modifyIdx]
      | succ m => simp [modifyIdx]
    | succ n =>
      cases j with
      | zero => simp [modifyIdx]
      | succ m => simpa [modifyIdx] using ih n m

theorem findIndex_found (p : SceneState → Bool) (l : List SceneState) (i : Nat)
    (h : findIndex p l = some i) : ∃ s, l[i]? = some s ∧ p s = true := by
  induction l generalizing i with
  | nil => simp [findIndex] at h
  | cons s rest ih =>
    by_cases hp : p s
    · simp [findIndex, hp] at h
      exact h ▸ ⟨s, by simp, hp⟩
    · simp [findIndex, hp] at h
      obtain ⟨j, hj, hji⟩ := h
      obtain ⟨t, ht, hpt⟩ := ih j hj
      exact ⟨t, by simpa [← hji] using ht, hpt⟩

theorem findIndex_earlier (p : SceneState → Bool) (l : List SceneState) (i : Nat)
    (h : findIndex p l = some i) :
    ∀ j, j < i → ∀ t, l[j]? = some t → p t = false := by
  induction l generalizing i with
  | nil => simp [findIndex] at h
  | cons s rest ih =>
    by_cases hp : p s
    · simp [findIndex, hp] at h
      intro j hj t ht
      omega
    · simp [findIndex, hp] at h
      obtain ⟨k, hk, hki⟩ := h
      intro j hj t ht
      cases j with
      | zero =>
        simp at ht
        exact ht ▸ (Bool.eq_false_iff.2 hp)
      | succ m =>
        simp at ht
        exact ih k hk m (by omega) t ht

/-! ### Claim theorems -/

/-- C2: for every input frame sequence of length at least 2, the Chain
Builder produces exactly `len(frames) - 1` scenes where scene `i` has
`startImage = frames[i]` and `endImage = frames[i+1]`, all
director-control text fields (script, movementDescription,
expressionDescription, endFrameActionPrompt) initialized to empty,
`targetResolution` defaulted to `'1080p'`, and `status` initialized to
`'idle'`. -/
theorem buildScenes_spec (ids : Nat → String) (frames : List String)
    (hlen : 2 ≤ frames.length) :
    (buildScenes ids frames).length = frames.length - 1 ∧
    ∀ i a b, frames[i]? = some a → frames[i + 1]? = some b →
      ∃ sc, (buildScenes ids frames)[i]? = some sc ∧
        sc.startImage = a ∧ sc.endImage = b ∧
        sc.script = "" ∧ sc.movementDescription = "" ∧
        sc.expressionDescription = "" ∧ sc.endFrameActionPrompt = "" ∧
        sc.targetResolution = Resolution.r1080p ∧ sc.status = Status.idle := by
  constructor
  · simp [buildScenes]
  · intro i a b ha hb
    have hb' : i + 1 < frames.length := (List.getElem?_eq_some.1 hb).1
    have hi : i < frames.length - 1 := by omega
    refine ⟨mkScene (ids i) i (frames.getD i "") (frames.getD (i + 1) ""), ?_, ?_, ?_, ?_, ?_, ?_, ?_, ?_, ?_⟩
    · simp [buildScenes, List.getElem?_range hi]
    · simp [mkScene, List.getD_eq_getElem?_getD, ha]
    · simp [mkScene, List.getD_eq_getElem?_getD, hb]
    · rfl
    · rfl
    · rfl
    · rfl
    · rfl
    · rfl

/-- Witness for C2 at `frames = ["a", "b", "c"]`. -/
theorem buildScenes_spec_witness :
    (buildScenes (fun _ => "u") ["a", "b", "c"]).length = 2 ∧
    (∃ sc, (buildScenes (fun _ => "u") ["a", "b", "c"])[0]? = some sc ∧
      sc.startImage = "a" ∧ sc.endImage = "b" ∧
      sc.script = "" ∧ sc.movementDescription = "" ∧
      sc.expressionDescription = "" ∧ sc.endFrameActionPrompt = "" ∧
      sc.targetResolution = Resolution.r1080p ∧ sc.status = Status.idle) :=
  ⟨by simpa using (buildScenes_spec (fun _ => "u") ["a", "b", "c"] (by decide)).1,
   (buildScenes_spec (fun _ => "u") ["a", "b", "c"] (by decide)).2 0 "a" "b" rfl rfl⟩

/-- C5: the pipeline fails (top-level step reset back to `'upload'`)
whenever the combined frame sequence `[originalImage] ++ synthesizedFrames`
contains fewer than 2 images, and no scene list is created in that case. -/
theorem assembleScenes_insufficient_frames (st : AppState) (ids : Nat → String)
    (cleanMain : String) (generatedFrames : List String)
    (h : (cleanMain :: generatedFrames).length < 2) :
    (assembleScenes st ids cleanMain generatedFrames).step = Step.upload ∧
    (assembleScenes st ids cleanMain generatedFrames).scenes = st.scenes := by
  have h' : generatedFrames.length + 1 < 2 := by simpa using h
  constructor <;> simp [assembleScenes, h']

/-- Witness for C5 at an empty list of synthesized frames. -/
theorem assembleScenes_insufficient_frames_witness :
    (assembleScenes (sampleState []) (fun _ => "u") "main" []).step = Step.upload ∧
    (assembleScenes (sampleState []) (fun _ => "u") "main" []).scenes = (sampleState []).scenes :=
  assembleScenes_insufficient_frames (sampleState []) (fun _ => "u") "main" [] (by decide)

/-- C10: `updateScript` sets the matching scene's script to the new text
and resets its `recommendedDuration` to null, leaving all of that scene's
other fields and every other scene — and the rest of the application
state — unchanged. -/
theorem updateScript_resets_duration (st : AppState) (sceneId text : String) :
    (updateScript st sceneId text).step = st.step ∧
    (updateScript st sceneId text).config = st.config ∧
    (updateScript st sceneId text).isApiKeySelected = st.isApiKeySelected ∧
    (updateScript st sceneId text).scenes.length = st.scenes.length ∧
    ∀ (j : Nat) (s s' : SceneState), st.scenes[j]? = some s →
      (updateScript st sceneId text).scenes[j]? = some s' →
      (s.id ≠ sceneId → s' = s) ∧
      (s.id = sceneId →
        s'.script = text ∧ s'.recommendedDuration = none ∧
        s'.id = s.id ∧ s'.index = s.index ∧
        s'.startImage = s.startImage ∧ s'.endImage = s.endImage ∧
        s'.movementDescription = s.movementDescription ∧
        s'.expressionDescription = s.expressionDescription ∧
        s'.targetResolution = s.targetResolution ∧
        s'.endFrameActionPrompt = s.endFrameActionPrompt ∧
        s'.isRegeneratingImage = s.isRegeneratingImage ∧
        s'.generatedVideoUrl = s.generatedVideoUrl ∧
        s'.isProcessing = s.isProcessing ∧
        s'.status = s.status ∧
        s'.errorMessage = s.errorMessage) := by
  refine ⟨rfl, rfl, rfl, by simp [updateScript], ?_⟩
  intro j s s' hs hs'
  have hmap : (updateScript st sceneId text).scenes[j]? =
      some (if s.id == sceneId then
        { s with script := text, recommendedDuration := none } else s) := by
    simp [updateScript, List.getElem?_map, hs]
  rw [hs'] at hmap
  have hval := Option.some.inj hmap
  constructor
  · intro hne
    simp [beq_eq_false_iff_ne.2 hne] at hval
    exact hval
  · intro heq
    simp [heq] at hval
    subst hval
    simp [heq]

/-- Witness for C10 on a one-scene state. -/
theorem updateScript_resets_duration_witness :
    ((updateScript (sampleState [mkScene "s1" 0 "a" "b"]) "s1" "hello").scenes.length
      = (sampleState [mkScene "s1" 0 "a" "b"]).scenes.length) ∧
    ((mkScene "s1" 0 "a" "b").id = "s1" →
      ∃ s', (updateScript (sampleState [mkScene "s1" 0 "a" "b"]) "s1" "hello").scenes[0]? = some s' ∧
        s'.script = "hello" ∧ s'.recommendedDuration = none) := by
  have h := updateScript_resets_duration (sampleState [mkScene "s1" 0 "a" "b"]) "s1" "hello"
  refine ⟨h.2.2.2.1, fun hid => ?_⟩
  have h5 := h.2.2.2.2 0 (mkScene "s1" 0 "a" "b")
    ((updateScript (sampleState [mkScene "s1" 0 "a" "b"]) "s1" "hello").scenes.getD 0 (mkScene "" 0 "" ""))
    (by simp [sampleState]) (by simp [updateScript, sampleState])
  exact ⟨_, by simp [updateScript, sampleState], (h5.2 hid).1, (h5.2 hid).2.1⟩

/-- C9: `analyzeFaceFeatures` and `analyzeSceneFeatures` always return a
non-empty textual description; when the gateway returns no usable text
(undefined or empty), the static fallback descriptions are substituted. -/
theorem analyzeFeatures_nonempty :
    (∀ t : Option String, analyzeFaceFeatures t ≠ "" ∧ analyzeSceneFeatures t ≠ "") ∧
    analyzeFaceFeatures none = "Detailed face reference." ∧
    analyzeFaceFeatures (some "") = "Detailed face reference." ∧
    analyzeSceneFeatures none = "Cinematic scene description." ∧
    analyzeSceneFeatures (some "") = "Cinematic scene description." := by
  refine ⟨?_, by decide, by decide, by decide, by decide⟩
  intro t
  cases t with
  | none => exact ⟨by decide, by decide⟩
  | some s =>
    by_cases h : s = ""
    · subst h
      exact ⟨by decide, by decide⟩
    · constructor <;> simp [analyzeFaceFeatures, analyzeSceneFeatures, h]

/-- C3 counterexample: on the raw gateway text `"approx. 4.5 seconds"` the
stored value is `".4.5"`, not `"4.5"` — the regex `[^0-9.]` keeps the dot
of `"approx."` as well. -/
theorem estimateSpeakingDuration_example_refuted :
    estimateSpeakingDuration "hello world" (Except.ok (some "approx. 4.5 seconds")) ≠ "4.5" ∧
    estimateSpeakingDuration "hello world" (Except.ok (some "approx. 4.5 seconds")) = ".4.5" := by
  constructor <;> decide

/-- C3 (amended): duration parsing keeps exactly the digits and dots of the
gateway text (so `"approx. 4.5 seconds"` is stored as `".4.5"`), and a
gateway failure stores the fallback `"8"`. -/
theorem estimateSpeakingDuration_spec (script : String)
    (hscript : trimString script ≠ "") :
    (∀ raw : String, ∀ c ∈ (estimateSpeakingDuration script (Except.ok (some raw))).toList,
      (c.isDigit || c == '.') = true) ∧
    estimateSpeakingDuration script (Except.ok (some "approx. 4.5 seconds")) = ".4.5" ∧
    estimateSpeakingDuration script (Except.error ()) = "8" := by
  have hlen : (trimString script).length ≠ 0 := by
    intro h
    apply hscript
    cases hmk : trimString script with
    | mk data =>
      rw [hmk] at h
      simp only [String.length] at h
      simp [List.length_eq_zero.1 h]
  have hcond : ((trimString script).length == 0) = false := beq_eq_false_iff_ne.2 hlen
  refine ⟨?_, ?_, ?_⟩
  · intro raw c hc
    simp only [estimateSpeakingDuration, hcond, Bool.false_eq_true, if_false,
      stripNonNumeric, Option.map_some', Option.getD_some] at hc
    exact (List.mem_filter.1 hc).2
  · simp only [estimateSpeakingDuration, hcond, Bool.false_eq_true, if_false,
      Option.map_some', Option.getD_some]
    decide
  · simp [estimateSpeakingDuration, hcond]

/-- Witness for C3's theorem at `script = "hello"`. -/
theorem estimateSpeakingDuration_spec_witness :
    estimateSpeakingDuration "hello" (Except.ok (some "approx. 4.5 seconds")) = ".4.5" ∧
    estimateSpeakingDuration "hello" (Except.error ()) = "8" :=
  ⟨(estimateSpeakingDuration_spec "hello" (by decide)).2.1,
   (estimateSpeakingDuration_spec "hello" (by decide)).2.2⟩

/-- C6: `analyzeDuration` is a no-op (no gateway call, no state change)
when the found scene's script is empty or whitespace-only, and
`regenerateEndFrame` is a no-op when the found scene's
`endFrameActionPrompt` is empty or whitespace-only — in both cases the
result is the unchanged state for every possible gateway outcome. -/
theorem blank_input_noop (st : AppState) (sceneId : String) :
    (∀ scene : SceneState,
      st.scenes.find? (fun s => s.id == sceneId) = some scene →
      trimString scene.script = "" →
      ∀ durationResult : Except Unit String,
        analyzeDuration st sceneId durationResult = st) ∧
    (∀ (i : Nat) (scene : SceneState),
      findIndex (fun s => s.id == sceneId) st.scenes = some i →
      st.scenes[i]? = some scene →
      trimString scene.endFrameActionPrompt = "" →
      ∀ gateway : Except Unit (Option String),
        regenerateEndFrame st sceneId gateway = st) := by
  constructor
  · intro scene hfind hblank durationResult
    simp [analyzeDuration, hfind, hblank]
  · intro i scene hfind hscene hblank gateway
    simp [regenerateEndFrame, hfind, List.getD_eq_getElem?_getD, hscene, hblank]

/-- Witness for C6 on a one-scene state with whitespace script and empty
action prompt. -/
theorem blank_input_noop_witness :
    analyzeDuration (sampleState [{ mkScene "s1" 0 "a" "b" with script := " " }]) "s1"
        (Except.ok "4")
      = sampleState [{ mkScene "s1" 0 "a" "b" with script := " " }] ∧
    regenerateEndFrame (sampleState [{ mkScene "s1" 0 "a" "b" with script := " " }]) "s1"
        (Except.error ())
      = sampleState [{ mkScene "s1" 0 "a" "b" with script := " " }] :=
  ⟨(blank_input_noop (sampleState [{ mkScene "s1" 0 "a" "b" with script := " " }]) "s1").1
      { mkScene "s1" 0 "a" "b" with script := " " } (by decide) (by decide) (Except.ok "4"),
   (blank_input_noop (sampleState [{ mkScene "s1" 0 "a" "b" with script := " " }]) "s1").2
      0 { mkScene "s1" 0 "a" "b" with script := " " } (by decide) (by decide) (by decide)
      (Except.error ())⟩

/-- C4: on success (`generateVeoSegment` resolves a non-empty url) the
target scene's status becomes `'complete'` with the url stored as its
video reference; on any gateway failure (a thrown submission/polling
error, or a completed job resolving no video reference) the status becomes
`'error'` with the fixed user-facing message and the video reference field
is not written. -/
theorem generateVideo_spec (st : AppState) (sceneId : String) (scene : SceneState)
    (hfind : st.scenes.find? (fun s => s.id == sceneId) = some scene) :
    (∀ url : String, url ≠ "" →
      ∀ (j : Nat) (s : SceneState), st.scenes[j]? = some s →
        (generateVideo st sceneId (Except.ok (some url))).scenes[j]? =
          some (if s.id == sceneId then
            { s with status := Status.complete, errorMessage := none,
                     generatedVideoUrl := some url }
          else s)) ∧
    (∀ gateway : Except Unit (Option String),
      gateway = Except.error () ∨ gateway = Except.ok none →
      ∀ (j : Nat) (s : SceneState), st.scenes[j]? = some s →
        (generateVideo st sceneId gateway).scenes[j]? =
          some (if s.id == sceneId then
            { s with status := Status.error, errorMessage := some veoErrorMessage }
          else s)) := by
  constructor
  · intro url hurl j s hs
    simp only [generateVideo, hfind, beq_eq_false_iff_ne.2 hurl, Bool.false_eq_true, if_false,
      List.getElem?_map, hs, Option.map_some']
    by_cases hid : s.id = sceneId <;> simp [hid]
  · intro gateway hfail j s hs
    rcases hfail with rfl | rfl <;>
    · simp only [generateVideo, hfind, List.getElem?_map, hs, Option.map_some']
      by_cases hid : s.id = sceneId <;> simp [hid]

/-- Witness for C4 on a one-scene state, exercising both the success and
the failure branch. -/
theorem generateVideo_spec_witness :
    (generateVideo (sampleState [mkScene "s1" 0 "a" "b"]) "s1"
        (Except.ok (some "blob:v"))).scenes[0]? =
      some (if (mkScene "s1" 0 "a" "b").id == "s1" then
        { mkScene "s1" 0 "a" "b" with
            status := Status.complete
            errorMessage := none
            generatedVideoUrl := some "blob:v" }
      else mkScene "s1" 0 "a" "b") ∧
    (generateVideo (sampleState [mkScene "s1" 0 "a" "b"]) "s1"
        (Except.error ())).scenes[0]? =
      some (if (mkScene "s1" 0 "a" "b").id == "s1" then
        { mkScene "s1" 0 "a" "b" with
            status := Status.error
            errorMessage := some veoErrorMessage }
      else mkScene "s1" 0 "a" "b") :=
  ⟨(generateVideo_spec (sampleState [mkScene "s1" 0 "a" "b"]) "s1" (mkScene "s1" 0 "a" "b")
      (by decide)).1 "blob:v" (by decide) 0 (mkScene "s1" 0 "a" "b") (by decide),
   (generateVideo_spec (sampleState [mkScene "s1" 0 "a" "b"]) "s1" (mkScene "s1" 0 "a" "b")
      (by decide)).2 (Except.error ()) (Or.inl rfl) 0 (mkScene "s1" 0 "a" "b") (by decide)⟩

/-- C7: when `regenerateEndFrame` fails (the gateway call throws or
returns no image), the matching scene's `isRegeneratingImage` flag is
cleared and every scene is otherwise unchanged — in particular every
scene's `startImage` and `endImage` are untouched, as are the top-level
fields of the state. -/
theorem regenerateEndFrame_failure_clears_flag (st : AppState) (sceneId : String)
    (i : Nat) (scene : SceneState)
    (hfind : findIndex (fun s => s.id == sceneId) st.scenes = some i)
    (hscene : st.scenes[i]? = some scene)
    (hprompt : trimString scene.endFrameActionPrompt ≠ "")
    (gateway : Except Unit (Option String))
    (hfail : gateway = Except.error () ∨ gateway = Except.ok none) :
    (regenerateEndFrame st sceneId gateway).step = st.step ∧
    (regenerateEndFrame st sceneId gateway).config = st.config ∧
    (regenerateEndFrame st sceneId gateway).scenes.length = st.scenes.length ∧
    ∀ (j : Nat) (s : SceneState), st.scenes[j]? = some s →
      (regenerateEndFrame st sceneId gateway).scenes[j]? =
        some (if s.id == sceneId then { s with isRegeneratingImage := false } else s) := by
  have hres : regenerateEndFrame st sceneId gateway =
      { st with scenes := (st.scenes.map fun s =>
          if s.id == sceneId then { s with isRegeneratingImage := true } else s).map fun s =>
          if s.id == sceneId then { s with isRegeneratingImage := false } else s } := by
    rcases hfail with rfl | rfl <;>
      simp [regenerateEndFrame, hfind, List.getD_eq_getElem?_getD, hscene,
        beq_eq_false_iff_ne.2 hprompt]
  refine ⟨by rw [hres], by rw [hres], by rw [hres]; simp, ?_⟩
  intro j s hs
  rw [hres]
  simp only [List.getElem?_map, hs, Option.map_some']
  by_cases hid : s.id = sceneId <;> simp [hid]

/-- Witness for C7 on a one-scene state with a non-blank action prompt and
a throwing gateway. -/
theorem regenerateEndFrame_failure_clears_flag_witness :
    (regenerateEndFrame
        (sampleState [{ mkScene "s1" 0 "a" "b" with endFrameActionPrompt := "wave" }]) "s1"
        (Except.error ())).scenes.length
      = (sampleState [{ mkScene "s1" 0 "a" "b" with endFrameActionPrompt := "wave" }]).scenes.length ∧
    (regenerateEndFrame
        (sampleState [{ mkScene "s1" 0 "a" "b" with endFrameActionPrompt := "wave" }]) "s1"
        (Except.error ())).scenes[0]? =
      some (if ({ mkScene "s1" 0 "a" "b" with endFrameActionPrompt := "wave" } : SceneState).id == "s1" then
        { ({ mkScene "s1" 0 "a" "b" with endFrameActionPrompt := "wave" } : SceneState) with
            isRegeneratingImage := false }
      else { mkScene "s1" 0 "a" "b" with endFrameActionPrompt := "wave" }) :=
  ⟨(regenerateEndFrame_failure_clears_flag
      (sampleState [{ mkScene "s1" 0 "a" "b" with endFrameActionPrompt := "wave" }]) "s1"
      0 { mkScene "s1" 0 "a" "b" with endFrameActionPrompt := "wave" }
      (by decide) (by decide) (by decide) (Except.error ()) (Or.inl rfl)).2.2.1,
   (regenerateEndFrame_failure_clears_flag
      (sampleState [{ mkScene "s1" 0 "a" "b" with endFrameActionPrompt := "wave" }]) "s1"
      0 { mkScene "s1" 0 "a" "b" with endFrameActionPrompt := "wave" }
      (by decide) (by decide) (by decide) (Except.error ()) (Or.inl rfl)).2.2.2
      0 { mkScene "s1" 0 "a" "b" with endFrameActionPrompt := "wave" } (by decide)⟩

/-- C1: when `regenerateEndFrame` succeeds with a new image on a scene
that is not the last, the scene's `endImage` and the next scene's
`startImage` both become the new image, both scenes' `generatedVideoUrl`
fields are cleared, and both scenes' statuses are reset to `'idle'`. -/
theorem regenerateEndFrame_success_propagates (st : AppState) (sceneId : String)
    (i : Nat) (scene : SceneState) (img : String)
    (hfind : findIndex (fun s => s.id == sceneId) st.scenes = some i)
    (hscene : st.scenes[i]? = some scene)
    (hprompt : trimString scene.endFrameActionPrompt ≠ "")
    (himg : img ≠ "")
    (hnext : i + 1 < st.scenes.length) :
    ((regenerateEndFrame st sceneId (Except.ok (some img))).scenes[i]?.map
        SceneState.endImage = some img) ∧
    ((regenerateEndFrame st sceneId (Except.ok (some img))).scenes[i + 1]?.map
        SceneState.startImage = some img) ∧
    ((regenerateEndFrame st sceneId (Except.ok (some img))).scenes[i]?.map
        SceneState.generatedVideoUrl = some none) ∧
    ((regenerateEndFrame st sceneId (Except.ok (some img))).scenes[i + 1]?.map
        SceneState.generatedVideoUrl = some none) ∧
    ((regenerateEndFrame st sceneId (Except.ok (some img))).scenes[i]?.map
        SceneState.status = some Status.idle) ∧
    ((regenerateEndFrame st sceneId (Except.ok (some img))).scenes[i + 1]?.map
        SceneState.status = some Status.idle) := by
  obtain ⟨nxt, hnxt⟩ : ∃ x, st.scenes[i + 1]? = some x :=
    ⟨st.scenes[i + 1], List.getElem?_eq_getElem hnext⟩
  have hres : (regenerateEndFrame st sceneId (Except.ok (some img))).scenes =
      modifyIdx (modifyIdx (st.scenes.map fun s =>
          if s.id == sceneId then { s with isRegeneratingImage := true } else s) i
        (fun s => { s with
            endImage := img
            isRegeneratingImage := false
            generatedVideoUrl := none
            status := Status.idle }))
        (i + 1)
        (fun s => { s with
            startImage := img
            generatedVideoUrl := none
            status := Status.idle }) := by
    simp [regenerateEndFrame, hfind, List.getD_eq_getElem?_getD, hscene,
      beq_eq_false_iff_ne.2 hprompt, beq_eq_false_iff_ne.2 himg,
      length_modifyIdx, hnext]
  have hne : i ≠ i + 1 := by omega
  refine ⟨?_, ?_, ?_, ?_, ?_, ?_⟩ <;>
    simp [hres, getElem?_modifyIdx, hne, List.getElem?_map, hscene, hnxt]

/-- Witness for C1 on a two-scene state, regenerating scene 0. -/
theorem regenerateEndFrame_success_propagates_witness :
    ((regenerateEndFrame
        (sampleState [{ mkScene "s1" 0 "a" "b" with endFrameActionPrompt := "wave" },
          mkScene "s2" 1 "b" "c"]) "s1"
        (Except.ok (some "IMG"))).scenes[0]?.map SceneState.endImage = some "IMG") ∧
    ((regenerateEndFrame
        (sampleState [{ mkScene "s1" 0 "a" "b" with endFrameActionPrompt := "wave" },
          mkScene "s2" 1 "b" "c"]) "s1"
        (Except.ok (some "IMG"))).scenes[0 + 1]?.map SceneState.startImage = some "IMG") ∧
    ((regenerateEndFrame
        (sampleState [{ mkScene "s1" 0 "a" "b" with endFrameActionPrompt := "wave" },
          mkScene "s2" 1 "b" "c"]) "s1"
        (Except.ok (some "IMG"))).scenes[0]?.map SceneState.generatedVideoUrl = some none) ∧
    ((regenerateEndFrame
        (sampleState [{ mkScene "s1" 0 "a" "b" with endFrameActionPrompt := "wave" },
          mkScene "s2" 1 "b" "c"]) "s1"
        (Except.ok (some "IMG"))).scenes[0 + 1]?.map SceneState.generatedVideoUrl = some none) ∧
    ((regenerateEndFrame
        (sampleState [{ mkScene "s1" 0 "a" "b" with endFrameActionPrompt := "wave" },
          mkScene "s2" 1 "b" "c"]) "s1"
        (Except.ok (some "IMG"))).scenes[0]?.map SceneState.status = some Status.idle) ∧
    ((regenerateEndFrame
        (sampleState [{ mkScene "s1" 0 "a" "b" with endFrameActionPrompt := "wave" },
          mkScene "s2" 1 "b" "c"]) "s1"
        (Except.ok (some "IMG"))).scenes[0 + 1]?.map SceneState.status = some Status.idle) :=
  regenerateEndFrame_success_propagates
    (sampleState [{ mkScene "s1" 0 "a" "b" with endFrameActionPrompt := "wave" },
      mkScene "s2" 1 "b" "c"]) "s1" 0
    { mkScene "s1" 0 "a" "b" with endFrameActionPrompt := "wave" } "IMG"
    (by decide) (by decide) (by decide) (by decide) (by decide)

/-- C8: when `regenerateEndFrame` succeeds on the last scene, only that
scene is modified (new end image, cleared video, idle status, cleared
flag); every other index of the scene list is unchanged and no
out-of-bounds scene is touched. -/
theorem regenerateEndFrame_last_scene (st : AppState) (sceneId : String)
    (i : Nat) (scene : SceneState) (img : String)
    (hfind : findIndex (fun s => s.id == sceneId) st.scenes = some i)
    (hscene : st.scenes[i]? = some scene)
    (hprompt : trimString scene.endFrameActionPrompt ≠ "")
    (himg : img ≠ "")
    (hlast : i + 1 = st.scenes.length) :
    (regenerateEndFrame st sceneId (Except.ok (some img))).scenes.length
      = st.scenes.length ∧
    (regenerateEndFrame st sceneId (Except.ok (some img))).scenes[i]? =
      some { scene with
        endImage := img
        isRegeneratingImage := false
        generatedVideoUrl := none
        status := Status.idle } ∧
    ∀ j : Nat, j ≠ i →
      (regenerateEndFrame st sceneId (Except.ok (some img))).scenes[j]?
        = st.scenes[j]? := by
  have hpscene : (scene.id == sceneId) = true := by
    obtain ⟨t, ht, hpt⟩ := findIndex_found _ _ _ hfind
    rw [hscene] at ht
    exact (Option.some.inj ht) ▸ hpt
  have hnotlt : ¬ (i + 1 < st.scenes.length) := by omega
  have hres : (regenerateEndFrame st sceneId (Except.ok (some img))).scenes =
      modifyIdx (st.scenes.map fun s =>
          if s.id == sceneId then { s with isRegeneratingImage := true } else s) i
        (fun s => { s with
            endImage := img
            isRegeneratingImage := false
            generatedVideoUrl := none
            status := Status.idle }) := by
    simp [regenerateEndFrame, hfind, List.getD_eq_getElem?_getD, hscene,
      beq_eq_false_iff_ne.2 hprompt, beq_eq_false_iff_ne.2 himg,
      length_modifyIdx, hnotlt]
  have hid : scene.id = sceneId := by simpa using hpscene
  refine ⟨by simp [hres, length_modifyIdx], ?_, ?_⟩
  · simp [hres, getElem?_modifyIdx, List.getElem?_map, hscene, hid]
  · intro j hj
    rw [hres, getElem?_modifyIdx, if_neg hj]
    rcases Nat.lt_or_ge j i with hji | hji
    · cases hsj : st.scenes[j]? with
      | none => simp [List.getElem?_map, hsj]
      | some t =>
        have hpt : (fun s => s.id == sceneId) t = false :=
          findIndex_earlier _ _ _ hfind j hji t hsj
        simp only [List.getElem?_map, hsj, Option.map_some']
        simp only at hpt
        simp [hpt]
    · have hlen : st.scenes.length ≤ j := by omega
      rw [List.getElem?_eq_none hlen, List.getElem?_eq_none (by simpa using hlen)]

/-- Witness for C8 on a one-scene state (the only scene is the last). -/
theorem regenerateEndFrame_last_scene_witness :
    (regenerateEndFrame
        (sampleState [{ mkScene "s1" 0 "a" "b" with endFrameActionPrompt := "wave" }]) "s1"
        (Except.ok (some "IMG"))).scenes.length
      = (sampleState [{ mkScene "s1" 0 "a" "b" with endFrameActionPrompt := "wave" }]).scenes.length ∧
    (regenerateEndFrame
        (sampleState [{ mkScene "s1" 0 "a" "b" with endFrameActionPrompt := "wave" }]) "s1"
        (Except.ok (some "IMG"))).scenes[0]? =
      some { ({ mkScene "s1" 0 "a" "b" with endFrameActionPrompt := "wave" } : SceneState) with
        endImage := "IMG"
        isRegeneratingImage := false
        generatedVideoUrl := none
        status := Status.idle } ∧
    ∀ j : Nat, j ≠ 0 →
      (regenerateEndFrame
          (sampleState [{ mkScene "s1" 0 "a" "b" with endFrameActionPrompt := "wave" }]) "s1"
          (Except.ok (some "IMG"))).scenes[j]?
        = (sampleState [{ mkScene "s1" 0 "a" "b" with endFrameActionPrompt := "wave" }]).scenes[j]? :=
  regenerateEndFrame_last_scene
    (sampleState [{ mkScene "s1" 0 "a" "b" with endFrameActionPrompt := "wave" }]) "s1" 0
    { mkScene "s1" 0 "a" "b" with endFrameActionPrompt := "wave" } "IMG"
    (by decide) (by decide) (by decide) (by decide) (by decide)

end Veo
